import Mathlib

/-!
Shallow embedding of `src/bot.py` (tik31/vless_vpn), a Telegram notification
daemon, together with theorems settling the spec claims about it.

File contents are modelled explicitly: the subscribers file as an optional list
of lines (`none` = file absent), the last-message and pending-message files as
optional whole-file strings.  Fallible I/O is modelled with explicit success
flags; the Telegram gateway is modelled by a per-recipient success predicate.
Python string primitives used by the source (`str.strip`, `str.isdigit`,
`int(...)` on digit strings, f-string rendering of an `int`) are embedded over
`List Char`; `strip`/`isdigit` are modelled over the ASCII repertoire the
source actually stores (decimal digit lines written by the bot itself).
-/

namespace VlessBot

/-- Python `str.strip()` on the underlying character list: drop leading and
trailing whitespace. -/
def stripChars (l : List Char) : List Char :=
  ((l.dropWhile Char.isWhitespace).reverse.dropWhile Char.isWhitespace).reverse

/-- Python `str.strip()`. -/
def pyStrip (s : String) : String :=
  ⟨stripChars s.data⟩

/-- Python `str.isdigit()` (ASCII decimal repertoire): nonempty and all
characters are decimal digits. -/
def pyIsDigit (s : String) : Bool :=
  !s.data.isEmpty && s.data.all Char.isDigit

/-- Value of a decimal digit string, most significant digit first.  Models
Python `int(s)` on the digit-only strings the source guards with
`str.isdigit()`. -/
def pyIntDigits (l : List Char) : Nat :=
  l.foldl (fun n c => n * 10 + (c.toNat - 48)) 0

/-- Python `int(s)` for a digit string `s`. -/
def pyInt (s : String) : Nat :=
  pyIntDigits s.data

/-- Decimal digit characters of `n`, most significant first, with explicit
fuel (any fuel `> n` is enough; the wrapper `renderNat` supplies `n + 1`). -/
def natChars : Nat → Nat → List Char
  | 0, _ => []
  | fuel + 1, n =>
    if n < 10 then [Nat.digitChar n]
    else natChars fuel (n / 10) ++ [Nat.digitChar (n % 10)]

/-- Decimal rendering of a natural number. -/
def renderNat (n : Nat) : String :=
  ⟨natChars (n + 1) n⟩

/-- Python f-string rendering `f"{chat_id}"` of an `int`. -/
def pyStr (i : Int) : String :=
  if i < 0 then ⟨'-' :: natChars (i.natAbs + 1) i.natAbs⟩ else renderNat i.toNat

/-- State of the Subscriber Store: the durable `subscribers.txt` as an optional
list of lines (without trailing newlines; `none` = file absent), and the
in-memory `self.subscribers : Set[int]`. -/
structure StoreState where
  file : Option (List String)
  mem : Finset Int
deriving DecidableEq

/-- One line of the durable store as parsed by `_load_subscribers`:
`int(line.strip())` for lines with `line.strip().isdigit()`, skipped
otherwise. -/
def parseSubscriberLine (line : String) : Option Int :=
  if pyIsDigit (pyStrip line) then some (Int.ofNat (pyInt (pyStrip line))) else none

/-- `TelegramBotDaemon._load_subscribers`: empty set when the file is absent,
empty set when reading raises (`readOk = false`), otherwise the set of values
of the lines that pass the `isdigit` guard. -/
def loadSubscribers (file : Option (List String)) (readOk : Bool) : Finset Int :=
  match file with
  | none => ∅
  | some lines => if readOk then (lines.filterMap parseSubscriberLine).toFinset else ∅

/-- `TelegramBotDaemon._save_subscriber`: no-op returning `false` when the id
is already in memory; otherwise append `f"{chat_id}\n"` to the durable file
(created by `open(..., 'a')` when absent) and add to the in-memory set.
`appendOk = false` models the append raising: the handler returns `false` and
the in-memory set is untouched. -/
def saveSubscriber (appendOk : Bool) (chatId : Int) (s : StoreState) : Bool × StoreState :=
  if chatId ∈ s.mem then (false, s)
  else if appendOk then
    (true, ⟨some (s.file.getD [] ++ [pyStr chatId]), insert chatId s.mem⟩)
  else (false, s)

/-- Per-send outcome and call log of one broadcast. -/
structure BroadcastResult where
  success : Nat
  failed : Nat
  calls : List (Int × String)
deriving DecidableEq

/-- One iteration of the `for chat_id in self.subscribers` loop body of
`broadcast_message`: attempt the gateway send, bump the matching counter,
continue. -/
def broadcastStep (message : String) (sendOk : Int → Bool)
    (acc : BroadcastResult) (chatId : Int) : BroadcastResult :=
  if sendOk chatId then
    ⟨acc.success + 1, acc.failed, acc.calls ++ [(chatId, message)]⟩
  else
    ⟨acc.success, acc.failed + 1, acc.calls ++ [(chatId, message)]⟩

/-- `TelegramBotDaemon.broadcast_message`: early return when there are no
subscribers, otherwise one gateway send per subscriber with per-recipient
failures counted and swallowed.  `subs` enumerates the in-memory subscriber
set; `sendOk` is the gateway behaviour (whether `bot.send_message` to a given
chat succeeds).  The returned counters are the `success_count`/`failed_count`
the source logs at completion. -/
def broadcastMessage (message : String) (subs : List Int) (sendOk : Int → Bool) :
    BroadcastResult :=
  if subs.isEmpty then ⟨0, 0, []⟩
  else subs.foldl (broadcastStep message sendOk) ⟨0, 0, []⟩

/-- Daemon-side file state: `pending_message.txt` and `last_message.txt` as
optional whole-file contents (`none` = file absent). -/
structure DaemonFS where
  pending : Option String
  lastMessage : Option String
deriving DecidableEq

/-- `TelegramBotDaemon._get_last_message`: fixed default greeting when the file
is absent, unreadable (`readOk = false`), or strips to empty; otherwise the
stripped file content. -/
def defaultGreeting : String :=
  "Добро пожаловать! 👋 Вы подписались на уведомления."

def getLastMessage (file : Option String) (readOk : Bool) : String :=
  match file with
  | none => defaultGreeting
  | some content =>
    if readOk then
      if pyStrip content = "" then defaultGreeting else pyStrip content
    else defaultGreeting

/-- Observable outcome of one iteration of `monitor_pending_messages`. -/
structure TickResult where
  fs : DaemonFS
  lastWrite : Option String
  broadcastText : Option String
  broadcast : Option BroadcastResult
deriving DecidableEq

/-- One iteration of the `monitor_pending_messages` poll loop: if the pending
file exists, read and strip it; when the stripped text is nonempty (Python
truthiness of `message`), write it to `last_message.txt` and broadcast it;
in either case delete the pending file. -/
def monitorTick (subs : List Int) (sendOk : Int → Bool) (fs : DaemonFS) : TickResult :=
  match fs.pending with
  | none => ⟨fs, none, none, none⟩
  | some content =>
    if pyStrip content = "" then
      ⟨⟨none, fs.lastMessage⟩, none, none, none⟩
    else
      ⟨⟨none, some (pyStrip content)⟩, some (pyStrip content), some (pyStrip content),
        some (broadcastMessage (pyStrip content) subs sendOk)⟩

/-- Outcome of the enqueue entry point: resulting file state and process exit
code (`0` = success, `1` = the `sys.exit(1)` error path). -/
structure NotifyResult where
  fs : DaemonFS
  exitCode : Nat
deriving DecidableEq

/-- `send_notification`: reject empty/whitespace-only text with exit code 1
and no file mutation; otherwise write the message verbatim into
`pending_message.txt` (mode `'w'`: overwrites any prior entry) and succeed. -/
def sendNotification (message : String) (fs : DaemonFS) : NotifyResult :=
  if pyStrip message = "" then ⟨fs, 1⟩
  else ⟨{ fs with pending := some message }, 0⟩

/-- Observable outcome of `start_command` for one registration event. -/
structure StartResult where
  store : StoreState
  isNew : Bool
  replyTo : Int
  replyText : String
  replyDelivered : Bool
deriving DecidableEq

/-- `TelegramBotDaemon.start_command`: register the sender via
`_save_subscriber`, read the last message via `_get_last_message`, and reply
with it to the sender; a reply failure (`replyOk = false`) is caught and
logged, leaving the store untouched. -/
def startCommand (chatId : Int) (appendOk replyOk : Bool) (store : StoreState)
    (lastFile : Option String) (lastReadOk : Bool) : StartResult :=
  let r := saveSubscriber appendOk chatId store
  ⟨r.2, r.1, chatId, getLastMessage lastFile lastReadOk, replyOk⟩

/-- Gateway behaviour in which every send succeeds. -/
def gatewayUp : Int → Bool := fun _ => true

/-- Gateway behaviour in which every send fails. -/
def gatewayDown : Int → Bool := fun _ => false

/-! ### Helper lemmas about the embedded Python string primitives -/

theorem digitChar_isDigit {d : Nat} (h : d < 10) : (Nat.digitChar d).isDigit = true := by
  interval_cases d <;> decide

theorem digitChar_toNat {d : Nat} (h : d < 10) : (Nat.digitChar d).toNat = 48 + d := by
  interval_cases d <;> decide

theorem natChars_all_digit :
    ∀ fuel n, n < fuel → ∀ c ∈ natChars fuel n, c.isDigit = true := by
  intro fuel
  induction fuel with
  | zero => intro n h; omega
  | succ fuel ih =>
    intro n h c hc
    by_cases h10 : n < 10
    · simp only [natChars, if_pos h10, List.mem_singleton] at hc
      exact hc ▸ digitChar_isDigit h10
    · simp only [natChars, if_neg h10, List.mem_append, List.mem_singleton] at hc
      rcases hc with hc | hc
      · exact ih (n / 10) (by omega) c hc
      · exact hc ▸ digitChar_isDigit (Nat.mod_lt n (by omega))

theorem natChars_ne_nil : ∀ fuel n, n < fuel → natChars fuel n ≠ [] := by
  intro fuel n h
  match fuel with
  | fuel + 1 =>
    by_cases h10 : n < 10 <;> simp [natChars, h10]

theorem pyFold_natChars :
    ∀ fuel n acc, n < fuel →
      List.foldl (fun m c => m * 10 + (c.toNat - 48)) acc (natChars fuel n) =
        acc * 10 ^ (natChars fuel n).length + n := by
  intro fuel
  induction fuel with
  | zero => intro n acc h; omega
  | succ fuel ih =>
    intro n acc h
    by_cases h10 : n < 10
    · simp [natChars, h10, digitChar_toNat h10]
    · have hdiv : n / 10 < fuel := by
        have : n / 10 < n := Nat.div_lt_self (by omega) (by omega)
        omega
      have hmod : n % 10 < 10 := Nat.mod_lt n (by omega)
      simp only [natChars, if_neg h10, List.foldl_append, List.foldl_cons, List.foldl_nil,
        List.length_append, List.length_singleton]
      rw [ih (n / 10) acc hdiv, digitChar_toNat hmod]
      have hpow : acc * 10 ^ ((natChars fuel (n / 10)).length + 1) =
          acc * 10 ^ (natChars fuel (n / 10)).length * 10 := by ring
      have hdm : n / 10 * 10 + n % 10 = n := by omega
      omega

theorem isDigit_not_whitespace {c : Char} (h : c.isDigit = true) :
    c.isWhitespace = false := by
  simp only [Char.isDigit, Bool.and_eq_true, decide_eq_true_eq] at h
  obtain ⟨h1, h2⟩ := h
  by_contra hw
  rw [Bool.not_eq_false] at hw
  simp only [Char.isWhitespace, Bool.or_eq_true, decide_eq_true_eq] at hw
  rcases hw with ((h3 | h3) | h3) | h3 <;> subst h3 <;> revert h1 h2 <;> decide

theorem dropWhile_whitespace_of_digits {l : List Char}
    (h : ∀ c ∈ l, c.isDigit = true) : l.dropWhile Char.isWhitespace = l := by
  cases l with
  | nil => rfl
  | cons c l =>
    rw [List.dropWhile_cons_of_neg]
    simp [isDigit_not_whitespace (h c (List.mem_cons_self c l))]

theorem stripChars_of_digits {l : List Char}
    (h : ∀ c ∈ l, c.isDigit = true) : stripChars l = l := by
  unfold stripChars
  rw [dropWhile_whitespace_of_digits h,
    dropWhile_whitespace_of_digits (by simpa using h), List.reverse_reverse]

/-- Rendering a natural number survives `str.strip()` unchanged. -/
theorem pyStrip_renderNat (n : Nat) : pyStrip (renderNat n) = renderNat n := by
  unfold pyStrip renderNat
  exact congrArg String.mk
    (stripChars_of_digits (natChars_all_digit (n + 1) n (Nat.lt_succ_self n)))

/-- The rendering of a natural number passes the `isdigit()` guard. -/
theorem pyIsDigit_renderNat (n : Nat) : pyIsDigit (renderNat n) = true := by
  have hne := natChars_ne_nil (n + 1) n (Nat.lt_succ_self n)
  have hdig := natChars_all_digit (n + 1) n (Nat.lt_succ_self n)
  simp only [pyIsDigit, renderNat, Bool.and_eq_true, Bool.not_eq_true', List.all_eq_true]
  refine ⟨?_, hdig⟩
  cases h : natChars (n + 1) n with
  | nil => exact absurd h hne
  | cons c l => rfl

/-- `int(str(n)) = n`: parsing recovers the rendered value. -/
theorem pyInt_renderNat (n : Nat) : pyInt (renderNat n) = n := by
  have := pyFold_natChars (n + 1) n 0 (Nat.lt_succ_self n)
  simpa [pyInt, pyIntDigits, renderNat] using this

/-- A line written by `_save_subscriber` for a non-negative id is parsed back
by `_load_subscribers` to the same id. -/
theorem parseSubscriberLine_pyStr_ofNat (n : Nat) :
    parseSubscriberLine (pyStr (Int.ofNat n)) = some (Int.ofNat n) := by
  have hlt : ¬ ((n : Int) < 0) := by omega
  simp only [pyStr, Int.ofNat_eq_natCast, if_neg hlt, Int.toNat_natCast, parseSubscriberLine,
    pyStrip_renderNat, pyIsDigit_renderNat, if_pos, pyInt_renderNat]

/-- Membership characterisation of `_load_subscribers` on a readable file. -/
theorem mem_loadSubscribers (lines : List String) (x : Int) :
    x ∈ loadSubscribers (some lines) true ↔
      ∃ l ∈ lines, parseSubscriberLine l = some x := by
  simp [loadSubscribers, List.mem_filterMap]

/-- Invariant of the per-subscriber loop of `broadcast_message`. -/
theorem broadcast_foldl (message : String) (sendOk : Int → Bool) :
    ∀ (subs : List Int) (acc : BroadcastResult),
      subs.foldl (broadcastStep message sendOk) acc =
        ⟨acc.success + (subs.filter (fun c => sendOk c)).length,
         acc.failed + (subs.filter (fun c => !sendOk c)).length,
         acc.calls ++ subs.map (fun c => (c, message))⟩ := by
  intro subs
  induction subs with
  | nil => intro acc; simp
  | cons c subs ih =>
    intro acc
    rcases hc : sendOk c <;>
      simp [broadcastStep, ih, hc, List.filter_cons, List.append_assoc] <;> omega

/-- Closed form of `broadcast_message`. -/
theorem broadcastMessage_eq (message : String) (subs : List Int) (sendOk : Int → Bool) :
    broadcastMessage message subs sendOk =
      ⟨(subs.filter (fun c => sendOk c)).length,
       (subs.filter (fun c => !sendOk c)).length,
       subs.map (fun c => (c, message))⟩ := by
  unfold broadcastMessage
  by_cases he : subs.isEmpty
  · rw [List.isEmpty_iff] at he
    subst he
    simp
  · rw [if_neg he, broadcast_foldl]
    simp

/-! ### Claim theorems -/

/-- C1: for every finite subscriber list of length `N` and every gateway
behaviour under which exactly `M` of the individual sends fail,
`broadcast_message` attempts exactly one gateway send per subscriber (`N`
attempts, in order, no early termination and no retry) and its
success/failure counters are `(N − M, M)`; on an empty subscriber list it
reports `(0, 0)` and performs zero gateway calls. -/
theorem broadcast_completeness (message : String) (subs : List Int) (sendOk : Int → Bool) :
    (broadcastMessage message subs sendOk).calls = subs.map (fun c => (c, message)) ∧
    (broadcastMessage message subs sendOk).success =
      subs.length - (subs.filter (fun c => !sendOk c)).length ∧
    (broadcastMessage message subs sendOk).failed =
      (subs.filter (fun c => !sendOk c)).length ∧
    broadcastMessage message [] sendOk = ⟨0, 0, []⟩ := by
  have hlen : subs.length = (subs.filter (fun c => sendOk c)).length +
      (subs.filter (fun c => !sendOk c)).length :=
    List.length_eq_length_filter_add _
  rw [broadcastMessage_eq, broadcastMessage_eq]
  refine ⟨rfl, ?_, rfl, by simp⟩
  simp only
  omega

/-- C2 counterexample: registering the (negative) identifier `-1` succeeds,
but reloading the durable store does not contain `-1`: `_save_subscriber`
writes `"-1"` while `_load_subscribers` keeps only lines passing
`str.isdigit()`, which rejects the minus sign. -/
theorem register_load_roundtrip_counterexample :
    (saveSubscriber true (-1) ⟨some [], ∅⟩).1 = true ∧
      (-1 : Int) ∉ loadSubscribers (saveSubscriber true (-1) ⟨some [], ∅⟩).2.file true := by
  decide

/-- C2 (amended): for every NON-NEGATIVE identifier, registering it via
`_save_subscriber` from any store state whose in-memory set is covered by the
durable store, and then reloading via `_load_subscribers` (simulating a
restart), yields a set containing the identifier (exactly once, as `load`
returns a set). -/
theorem register_load_roundtrip (n : Nat) (s : StoreState)
    (hcons : ∀ x ∈ s.mem, x ∈ loadSubscribers s.file true) :
    Int.ofNat n ∈ loadSubscribers ((saveSubscriber true (Int.ofNat n) s).2).file true := by
  unfold saveSubscriber
  by_cases hm : Int.ofNat n ∈ s.mem
  · rw [if_pos hm]
    exact hcons _ hm
  · rw [if_neg hm, if_pos rfl]
    show Int.ofNat n ∈ loadSubscribers (some (s.file.getD [] ++ [pyStr (Int.ofNat n)])) true
    rw [mem_loadSubscribers]
    exact ⟨pyStr (Int.ofNat n), by simp, parseSubscriberLine_pyStr_ofNat n⟩

theorem register_load_roundtrip_witness :
    Int.ofNat 42 ∈ loadSubscribers ((saveSubscriber true (Int.ofNat 42) ⟨none, ∅⟩).2).file true :=
  register_load_roundtrip 42 ⟨none, ∅⟩ (by decide)

/-- C3: for an identifier not already registered, if the durable append fails
(`appendOk = false`, modelling the caught write exception), `_save_subscriber`
returns `false` and leaves the whole store state — in particular the in-memory
set — unchanged. -/
theorem register_append_failure (chatId : Int) (s : StoreState) (h : chatId ∉ s.mem) :
    saveSubscriber false chatId s = (false, s) := by
  simp [saveSubscriber, h]

theorem register_append_failure_witness :
    saveSubscriber false 7 ⟨none, ∅⟩ = (false, ⟨none, ∅⟩) :=
  register_append_failure 7 ⟨none, ∅⟩ (by decide)

/-- C4: after a first successful registration of an identifier, registering it
again (under any append behaviour) returns `false` and leaves both the durable
file content and the in-memory set exactly unchanged — no duplicate line is
appended. -/
theorem register_idempotent (chatId : Int) (s s2 : StoreState) (ok : Bool)
    (h : saveSubscriber true chatId s = (true, s2)) :
    saveSubscriber ok chatId s2 = (false, s2) := by
  unfold saveSubscriber at h
  by_cases hm : chatId ∈ s.mem
  · rw [if_pos hm] at h
    injection h with h1 h2
    exact absurd h1 (by decide)
  · rw [if_neg hm, if_pos rfl] at h
    injection h with h1 h2
    have hmem : chatId ∈ s2.mem := h2 ▸ Finset.mem_insert_self _ _
    simp [saveSubscriber, hmem]

theorem register_idempotent_witness :
    saveSubscriber true 5 ⟨some ["5"], {5}⟩ = (false, ⟨some ["5"], {5}⟩) :=
  register_idempotent 5 ⟨none, ∅⟩ ⟨some ["5"], {5}⟩ true (by decide)

/-- C5 counterexample: enqueue `"A"` then `" B "` with no consumption in
between.  Exactly one pending entry exists and its content is `" B "`
(last-write-wins holds), but consuming it hands `"B"` — the stripped form —
to the broadcast, not `" B "` itself, refuting "consuming it yields B". -/
theorem mailbox_single_slot_counterexample :
    ((sendNotification " B " (sendNotification "A" ⟨none, none⟩).fs).fs).pending = some " B " ∧
    (monitorTick [1] gatewayUp
        (sendNotification " B " (sendNotification "A" ⟨none, none⟩).fs).fs).broadcastText =
      some "B" ∧
    ("B" : String) ≠ " B " := by
  decide

/-- C5 (amended): the mailbox holds at most one pending entry: for any two
texts `A` then `B` enqueued with no consumption in between, exactly one
pending entry exists afterwards, its content is `B` (last-write-wins, `A` is
lost), and consuming it yields only the whitespace-stripped form of `B`
(never `A`), after which no entry is pending. -/
theorem mailbox_single_slot (A B : String) (fs : DaemonFS) (subs : List Int)
    (sendOk : Int → Bool) (hA : pyStrip A ≠ "") (hB : pyStrip B ≠ "") :
    ((sendNotification B (sendNotification A fs).fs).fs).pending = some B ∧
    (monitorTick subs sendOk (sendNotification B (sendNotification A fs).fs).fs).broadcastText =
      some (pyStrip B) ∧
    (monitorTick subs sendOk (sendNotification B (sendNotification A fs).fs).fs).fs.pending =
      none := by
  simp [sendNotification, hA, hB, monitorTick]

theorem mailbox_single_slot_witness :
    ((sendNotification "b" (sendNotification "a" ⟨none, none⟩).fs).fs).pending = some "b" ∧
    (monitorTick [1] gatewayUp
        (sendNotification "b" (sendNotification "a" ⟨none, none⟩).fs).fs).broadcastText =
      some (pyStrip "b") ∧
    (monitorTick [1] gatewayUp
        (sendNotification "b" (sendNotification "a" ⟨none, none⟩).fs).fs).fs.pending = none :=
  mailbox_single_slot "a" "b" ⟨none, none⟩ [1] gatewayUp (by decide) (by decide)

/-- C6: a poll-loop iteration finding the pending file present but with
empty/whitespace-only content performs no last-message write and no gateway
sends, yet still deletes the marker; and a later tick with the marker absent
does nothing, so the empty entry is never reprocessed. -/
theorem empty_pending_skips_broadcast (content : String) (last : Option String)
    (subs : List Int) (sendOk : Int → Bool) (h : pyStrip content = "") :
    monitorTick subs sendOk ⟨some content, last⟩ = ⟨⟨none, last⟩, none, none, none⟩ ∧
    monitorTick subs sendOk ⟨none, last⟩ = ⟨⟨none, last⟩, none, none, none⟩ := by
  simp [monitorTick, h]

theorem empty_pending_skips_broadcast_witness :
    monitorTick [3] gatewayUp ⟨some "  ", some "x"⟩ =
      ⟨⟨none, some "x"⟩, none, none, none⟩ ∧
    monitorTick [3] gatewayUp ⟨none, some "x"⟩ =
      ⟨⟨none, some "x"⟩, none, none, none⟩ :=
  empty_pending_skips_broadcast "  " (some "x") [3] gatewayUp (by decide)

/-- C7: `send_notification` on empty/whitespace-only text exits with code 1
and leaves the file state (in particular the pending marker) untouched; on
text with non-whitespace content it succeeds (exit code 0) and overwrites the
marker with the text. -/
theorem enqueue_validation (t : String) (fs : DaemonFS) :
    ((sendNotification t fs).exitCode = 1 ↔ pyStrip t = "") ∧
    (pyStrip t = "" → sendNotification t fs = ⟨fs, 1⟩) ∧
    (pyStrip t ≠ "" → sendNotification t fs = ⟨⟨some t, fs.lastMessage⟩, 0⟩) := by
  unfold sendNotification
  by_cases h : pyStrip t = "" <;> simp [h]

theorem enqueue_validation_witness :
    sendNotification " " ⟨none, some "m"⟩ = ⟨⟨none, some "m"⟩, 1⟩ ∧
    sendNotification "hi" ⟨some "old", some "m"⟩ = ⟨⟨some "hi", some "m"⟩, 0⟩ :=
  ⟨(enqueue_validation " " ⟨none, some "m"⟩).2.1 (by decide),
   (enqueue_validation "hi" ⟨some "old", some "m"⟩).2.2 (by decide)⟩

/-- C8: `_load_subscribers` is a total function (never raises): it returns the
empty set when the file is absent and when reading fails, and otherwise
returns exactly the values of the lines whose stripped form passes the
(ASCII) `isdigit` test — i.e. parse as a non-negative decimal integer —
silently skipping every malformed line. -/
theorem load_subscribers_total (lines : List String) (x : Int) (readOk : Bool) :
    loadSubscribers none readOk = ∅ ∧
    loadSubscribers (some lines) false = ∅ ∧
    (x ∈ loadSubscribers (some lines) true ↔
      ∃ l ∈ lines, pyIsDigit (pyStrip l) = true ∧ Int.ofNat (pyInt (pyStrip l)) = x) := by
  refine ⟨rfl, rfl, ?_⟩
  rw [mem_loadSubscribers]
  constructor
  · rintro ⟨l, hl, hp⟩
    refine ⟨l, hl, ?_⟩
    unfold parseSubscriberLine at hp
    by_cases hd : pyIsDigit (pyStrip l) = true
    · rw [if_pos hd] at hp
      injection hp with hp
      exact ⟨hd, hp⟩
    · rw [if_neg hd] at hp
      exact absurd hp (by simp)
  · rintro ⟨l, hl, hd, hv⟩
    exact ⟨l, hl, by rw [parseSubscriberLine, if_pos hd, hv]⟩

/-- C9: on a registration event for sender `chatId`, `start_command` calls
`_save_subscriber` and — new or already registered — reads the last-message
record and sends its content back to the sender as the reply; the resulting
store is exactly the one produced by `_save_subscriber` and is independent of
whether the reply delivery succeeds. -/
theorem registration_reply (chatId : Int) (appendOk replyOk : Bool) (store : StoreState)
    (lastFile : Option String) (lastReadOk : Bool) :
    (startCommand chatId appendOk replyOk store lastFile lastReadOk).store =
      (saveSubscriber appendOk chatId store).2 ∧
    (startCommand chatId appendOk replyOk store lastFile lastReadOk).replyTo = chatId ∧
    (startCommand chatId appendOk replyOk store lastFile lastReadOk).replyText =
      getLastMessage lastFile lastReadOk ∧
    (startCommand chatId appendOk false store lastFile lastReadOk).store =
      (startCommand chatId appendOk true store lastFile lastReadOk).store :=
  ⟨rfl, rfl, rfl, rfl⟩

/-- C10: `send_notification` writes the enqueued text verbatim into the
pending file, but the poll loop strips it before acting: for every text with
non-whitespace content, the text persisted to the last-message record and
handed to the broadcast engine is the stripped form of the text, not the text
itself. -/
theorem enqueue_strip_pipeline (t : String) (fs : DaemonFS) (subs : List Int)
    (sendOk : Int → Bool) (h : pyStrip t ≠ "") :
    ((sendNotification t fs).fs).pending = some t ∧
    (monitorTick subs sendOk (sendNotification t fs).fs).lastWrite = some (pyStrip t) ∧
    (monitorTick subs sendOk (sendNotification t fs).fs).broadcast =
      some (broadcastMessage (pyStrip t) subs sendOk) := by
  simp [sendNotification, h, monitorTick]

theorem enqueue_strip_pipeline_witness :
    ((sendNotification " hi " ⟨none, none⟩).fs).pending = some " hi " ∧
    (monitorTick [5] gatewayUp (sendNotification " hi " ⟨none, none⟩).fs).lastWrite =
      some (pyStrip " hi ") ∧
    (monitorTick [5] gatewayUp (sendNotification " hi " ⟨none, none⟩).fs).broadcast =
      some (broadcastMessage (pyStrip " hi ") [5] gatewayUp) :=
  enqueue_strip_pipeline " hi " ⟨none, none⟩ [5] gatewayUp (by decide)

end VlessBot
